import Mathlib

/-
  Verification development for create_icon.py, a one-shot utility that
  draws a network-themed application icon, writes it as a base PNG plus
  six resized copies under Resources/, and optionally converts the base
  PNG to ICNS with the external sips tool.

  The script is embedded shallowly: the filesystem is an association
  list of paths to file data plus a list of directories; printing is a
  list of messages; the availability of the PIL library and the outcome
  of the sips invocation are inputs of the model.  Drawing geometry is
  embedded over the reals.
-/

namespace CreateIcon

/-- An RGBA color, as the 4-tuples used throughout create_icon.py. -/
structure Color where
  r : Nat
  g : Nat
  b : Nat
  a : Nat
deriving DecidableEq, Repr

/-- The resampling filter used by img.resize; the script always passes
Image.Resampling.LANCZOS. -/
inductive Resampling where
  | lanczos
deriving DecidableEq, Repr

/-- Contents of a file written by the script: a PNG with its pixel
dimensions and the resampling filter it was produced with (none for the
base image, which is drawn rather than resized), or the ICNS bundle. -/
inductive FileData where
  | png (width height : Nat) (filter : Option Resampling)
  | icns
deriving DecidableEq, Repr

/-- Filesystem state: files as an association list from path to data,
and the set of directories, as a list. -/
structure FS where
  files : List (String × FileData)
  dirs : List String
deriving DecidableEq, Repr

def FS.empty : FS := ⟨[], []⟩

/-- os.path.exists for a file path. -/
def FS.fileExists (fs : FS) (p : String) : Bool :=
  fs.files.any (fun e => e.1 == p)

def FS.lookup (fs : FS) (p : String) : Option FileData :=
  (fs.files.find? (fun e => e.1 == p)).map Prod.snd

/-- img.save / sips --out: write a file, overwriting any previous entry
at the same path. -/
def FS.write (fs : FS) (p : String) (d : FileData) : FS :=
  if fs.fileExists p then
    { fs with files := fs.files.map (fun e => if e.1 == p then (p, d) else e) }
  else
    { fs with files := fs.files ++ [(p, d)] }

def FS.hasDir (fs : FS) (p : String) : Bool :=
  fs.dirs.any (fun d => d == p)

/-- os.makedirs(p, exist_ok=True). -/
def FS.mkdir (fs : FS) (p : String) : FS :=
  if fs.hasDir p then fs else { fs with dirs := fs.dirs ++ [p] }

/-! ### Constants of create_icon (lines 32-53 of create_icon.py) -/

def size : Nat := 512

def primary_color : Color := ⟨70, 130, 255, 255⟩

def secondary_color : Color := ⟨255, 255, 255, 255⟩

def accent_color : Color := ⟨255, 140, 0, 255⟩

def margin : Nat := 50

def center : Nat := size / 2

def hub_radius : Nat := 30

def node_radius : Nat := 20

def connection_radius : Nat := 150

/-- Line 65: node_color = accent_color if i % 2 == 0 else secondary_color. -/
def node_color (i : Nat) : Color :=
  if i % 2 == 0 then accent_color else secondary_color

/-- Line 57: angle = i * 60, in degrees. -/
def node_angle_deg (i : Nat) : Nat := i * 60

/-- math.radians. -/
noncomputable def radians (deg : ℝ) : ℝ := deg * Real.pi / 180

/-- Line 58: x = center + connection_radius * math.cos(math.radians(angle)). -/
noncomputable def nodeX (i : Nat) : ℝ :=
  (center : ℝ) + (connection_radius : ℝ) * Real.cos (radians (node_angle_deg i))

/-- Line 59: y = center + connection_radius * math.sin(math.radians(angle)). -/
noncomputable def nodeY (i : Nat) : ℝ :=
  (center : ℝ) + (connection_radius : ℝ) * Real.sin (radians (node_angle_deg i))

/-- A PIL draw call issued by create_icon: draw.ellipse with a bounding
box and fill, or draw.line with endpoints, fill and width. -/
inductive DrawCmd where
  | ellipse (x0 y0 x1 y1 : ℝ) (fill : Color)
  | line (x0 y0 x1 y1 : ℝ) (fill : Color) (width : Nat)

/-- The two draw calls of iteration i of the first loop (lines 56-67):
the spoke from the center and the node circle. -/
noncomputable def nodeCmds (i : Nat) : List DrawCmd :=
  [DrawCmd.line (center : ℝ) (center : ℝ) (nodeX i) (nodeY i) secondary_color 6,
   DrawCmd.ellipse (nodeX i - (node_radius : ℝ)) (nodeY i - (node_radius : ℝ))
     (nodeX i + (node_radius : ℝ)) (nodeY i + (node_radius : ℝ)) (node_color i)]

/-- Iteration i of the second loop (lines 70-80): the thin line from
node i to node (i+1) % 6. -/
noncomputable def neighborLineCmd (i : Nat) : DrawCmd :=
  DrawCmd.line (nodeX i) (nodeY i) (nodeX ((i + 1) % 6)) (nodeY ((i + 1) % 6))
    ⟨255, 255, 255, 128⟩ 2

/-- All draw calls of create_icon, in program order: background circle,
hub, six spokes and nodes, six neighbor lines. -/
noncomputable def iconDrawCmds : List DrawCmd :=
  DrawCmd.ellipse (margin : ℝ) (margin : ℝ) ((size : ℝ) - margin) ((size : ℝ) - margin)
      primary_color ::
  DrawCmd.ellipse ((center : ℝ) - hub_radius) ((center : ℝ) - hub_radius)
      ((center : ℝ) + hub_radius) ((center : ℝ) + hub_radius) secondary_color ::
  ((List.range 6).flatMap nodeCmds ++ (List.range 6).map neighborLineCmd)

/-! ### create_icon (lines 22-93) -/

/-- Line 87: sizes = [16, 32, 64, 128, 256, 512]. -/
def sizes : List Nat := [16, 32, 64, 128, 256, 512]

/-- The path of the resized copy for size s (line 90 f-string). -/
def sizedPngPath (s : Nat) : String :=
  "Resources/AppIcon_" ++ toString s ++ "x" ++ toString s ++ ".png"

/-- Result of create_icon: the boolean it returns, the filesystem after
its writes, and what it printed, in order. -/
structure RenderResult where
  ok : Bool
  fs : FS
  prints : List String
deriving DecidableEq, Repr

/-- create_icon (lines 22-93).  If PIL is unavailable it prints the
install hint and returns False; otherwise it draws the icon, saves
Resources/AppIcon.png at 512x512, then saves a LANCZOS-resized copy for
each entry of sizes, and returns True. -/
def create_icon (pilAvailable : Bool) (fs : FS) : RenderResult :=
  if pilAvailable = false then
    { ok := false, fs := fs,
      prints := ["PIL (Pillow) not available. Install with: pip3 install Pillow"] }
  else
    let fs1 := fs.write "Resources/AppIcon.png" (FileData.png size size none)
    let fs2 := sizes.foldl
      (fun acc s => acc.write (sizedPngPath s) (FileData.png s s (some Resampling.lanczos)))
      fs1
    { ok := true, fs := fs2,
      prints := ["✅ Created Resources/AppIcon.png", "✅ Created multiple icon sizes"] }

/-! ### create_icns (lines 95-118) -/

/-- Outcome of the subprocess.run invocation of sips: the tool ran and
exited zero, the tool ran and exited non-zero (CalledProcessError under
check=True), or the binary was absent (FileNotFoundError). -/
inductive SipsResult where
  | success
  | calledProcessError
  | fileNotFoundError
deriving DecidableEq, Repr

/-- Result of create_icns: the boolean it returns, the filesystem after
it, what it printed, and whether the sips subprocess was invoked. -/
structure IcnsResult where
  ok : Bool
  fs : FS
  prints : List String
  sipsInvoked : Bool
deriving DecidableEq, Repr

/-- create_icns (lines 95-118).  Guards on the existence of
Resources/AppIcon.png; otherwise invokes sips, writing
Resources/AppIcon.icns on success, and catches both error kinds with a
printed warning and a False return. -/
def create_icns (sips : SipsResult) (fs : FS) : IcnsResult :=
  if fs.fileExists "Resources/AppIcon.png" = false then
    { ok := false, fs := fs, prints := ["❌ AppIcon.png not found"], sipsInvoked := false }
  else
    match sips with
    | SipsResult.success =>
      { ok := true, fs := fs.write "Resources/AppIcon.icns" FileData.icns,
        prints := ["✅ Created Resources/AppIcon.icns"], sipsInvoked := true }
    | SipsResult.calledProcessError =>
      { ok := false, fs := fs,
        prints := ["⚠️  Could not create ICNS file (sips not available)"], sipsInvoked := true }
    | SipsResult.fileNotFoundError =>
      { ok := false, fs := fs,
        prints := ["⚠️  Could not create ICNS file (sips not found)"], sipsInvoked := true }

/-! ### Entry point (lines 120-132) -/

/-- The ambient environment of a run.  The script never reads sys.argv
or os.environ, but the model carries them so that independence from
them is a provable statement rather than an assumption. -/
structure Env where
  pilAvailable : Bool
  sips : SipsResult
  args : List String
  envVars : List (String × String)
deriving DecidableEq, Repr

/-- Observable outcome of a whole run: exit status, final filesystem,
everything printed in order, whether create_icns was called, and
whether the sips subprocess was invoked. -/
structure RunResult where
  exitCode : Nat
  fs : FS
  prints : List String
  icnsCalled : Bool
  sipsInvoked : Bool
deriving DecidableEq, Repr

/-- The __main__ block (lines 120-132): print the banner, make the
Resources directory, run create_icon; on success run create_icns and
print the completion line, exiting 0; on failure print the failure line
and exit 1 via sys.exit(1). -/
def main (env : Env) (fs0 : FS) : RunResult :=
  let fs1 := fs0.mkdir "Resources"
  let r := create_icon env.pilAvailable fs1
  if r.ok then
    let c := create_icns env.sips r.fs
    { exitCode := 0, fs := c.fs,
      prints := "🎨 Creating PortList app icon..." ::
        (r.prints ++ c.prints ++ ["🎉 Icon creation complete!"]),
      icnsCalled := true, sipsInvoked := c.sipsInvoked }
  else
    { exitCode := 1, fs := r.fs,
      prints := "🎨 Creating PortList app icon..." ::
        (r.prints ++ ["❌ Icon creation failed"]),
      icnsCalled := false, sipsInvoked := false }

/-! ### Derived observations -/

def FileData.isPng : FileData → Bool
  | FileData.png _ _ _ => true
  | FileData.icns => false

/-- The PNG entries of a filesystem, in order. -/
def pngFiles (fs : FS) : List (String × FileData) :=
  fs.files.filter (fun e => FileData.isPng e.2)

/-- The seven PNG files the script is expected to produce. -/
def expectedPngs : List (String × FileData) :=
  [("Resources/AppIcon.png", FileData.png 512 512 none),
   ("Resources/AppIcon_16x16.png", FileData.png 16 16 (some Resampling.lanczos)),
   ("Resources/AppIcon_32x32.png", FileData.png 32 32 (some Resampling.lanczos)),
   ("Resources/AppIcon_64x64.png", FileData.png 64 64 (some Resampling.lanczos)),
   ("Resources/AppIcon_128x128.png", FileData.png 128 128 (some Resampling.lanczos)),
   ("Resources/AppIcon_256x256.png", FileData.png 256 256 (some Resampling.lanczos)),
   ("Resources/AppIcon_512x512.png", FileData.png 512 512 (some Resampling.lanczos))]

/-! ### Strict write model

The coarse FS.write above always succeeds.  The actual img.save of
line 83 opens its path with the OS open call, which raises an uncaught
FileNotFoundError when the parent directory of the path is absent.
The strict model below includes that failure mode, so that the
behavior of create_icon on a state without the Resources directory is
the raising one of the program, not a silent success. -/

/-- The directory part of a path: everything before the last slash. -/
def dirname (p : String) : String :=
  String.mk (((p.data.reverse.dropWhile (fun c => c ≠ '/')).drop 1).reverse)

/-- img.save under the strict model: the write succeeds exactly when
the parent directory of the path exists, and otherwise fails like the
underlying open call. -/
def FS.writeStrict (fs : FS) (p : String) (d : FileData) : Option FS :=
  if fs.hasDir (dirname p) then some (fs.write p d) else none

/-- Outcome of create_icon under the strict write model: either the
value it returns together with the filesystem and prints, or an
uncaught Python exception with the filesystem and prints at the point
of the raise. -/
inductive StrictRender where
  | returned (r : RenderResult)
  | raised (exc : String) (fs : FS) (prints : List String)
deriving DecidableEq, Repr

/-- The resize loop of lines 88-90 under the strict model: save each
size in turn, stopping at the state of the first failing save. -/
def saveAllStrict : List Nat → FS → Except FS FS
  | [], fs => Except.ok fs
  | s :: rest, fs =>
    match FS.writeStrict fs (sizedPngPath s) (FileData.png s s (some Resampling.lanczos)) with
    | none => Except.error fs
    | some fs2 => saveAllStrict rest fs2

/-- create_icon under the strict write model.  Identical to
create_icon except that each img.save can raise FileNotFoundError,
which create_icon does not catch. -/
def create_icon_strict (pilAvailable : Bool) (fs : FS) : StrictRender :=
  if pilAvailable = false then
    StrictRender.returned
      { ok := false, fs := fs,
        prints := ["PIL (Pillow) not available. Install with: pip3 install Pillow"] }
  else
    match fs.writeStrict "Resources/AppIcon.png" (FileData.png size size none) with
    | none => StrictRender.raised "FileNotFoundError" fs []
    | some fs1 =>
      match saveAllStrict sizes fs1 with
      | Except.error fsAt =>
        StrictRender.raised "FileNotFoundError" fsAt ["✅ Created Resources/AppIcon.png"]
      | Except.ok fs2 =>
        StrictRender.returned
          { ok := true, fs := fs2,
            prints := ["✅ Created Resources/AppIcon.png", "✅ Created multiple icon sizes"] }

/-- The __main__ block under the strict renderer: none models a run
killed by an uncaught exception.  Because os.makedirs runs first, the
raising branch is unreachable, which main_strict_eq proves. -/
def main_strict (env : Env) (fs0 : FS) : Option RunResult :=
  let fs1 := fs0.mkdir "Resources"
  match create_icon_strict env.pilAvailable fs1 with
  | StrictRender.raised _ _ _ => none
  | StrictRender.returned r =>
    if r.ok then
      let c := create_icns env.sips r.fs
      some { exitCode := 0, fs := c.fs,
             prints := "🎨 Creating PortList app icon..." ::
               (r.prints ++ c.prints ++ ["🎉 Icon creation complete!"]),
             icnsCalled := true, sipsInvoked := c.sipsInvoked }
    else
      some { exitCode := 1, fs := r.fs,
             prints := "🎨 Creating PortList app icon..." ::
               (r.prints ++ ["❌ Icon creation failed"]),
             icnsCalled := false, sipsInvoked := false }

/-! ### Helper lemmas about the filesystem model -/

/-- Writing a file never changes the directory set. -/
theorem FS.write_dirs (fs : FS) (p : String) (d : FileData) :
    (FS.write fs p d).dirs = fs.dirs := by
  unfold FS.write; split <;> rfl

/-- Making a directory never changes the file set. -/
theorem FS.mkdir_files (fs : FS) (p : String) :
    (FS.mkdir fs p).files = fs.files := by
  unfold FS.mkdir; split <;> rfl

/-- After mkdir p, the directory p exists. -/
theorem FS.hasDir_mkdir (fs : FS) (p : String) :
    FS.hasDir (FS.mkdir fs p) p = true := by
  unfold FS.mkdir
  split
  · assumption
  · simp [FS.hasDir]

/-- Writing a file changes no directory predicate. -/
theorem FS.hasDir_write (fs : FS) (p : String) (d : FileData) (q : String) :
    FS.hasDir (FS.write fs p d) q = FS.hasDir fs q := by
  unfold FS.hasDir
  rw [FS.write_dirs]

/-- Every path the renderer saves lies directly under Resources. -/
theorem dirname_of_output_paths :
    dirname "Resources/AppIcon.png" = "Resources" ∧
    (sizes.all (fun s => dirname (sizedPngPath s) == "Resources")) = true := by
  decide

/-- On any state where the Resources directory exists, the strict
renderer raises nothing and agrees with the coarse one: every save
finds its parent directory. -/
theorem create_icon_strict_agrees (b : Bool) (fs : FS)
    (h : FS.hasDir fs "Resources" = true) :
    create_icon_strict b fs = StrictRender.returned (create_icon b fs) := by
  cases b
  · rfl
  · have d0 : dirname "Resources/AppIcon.png" = "Resources" := by decide
    have d16 : dirname (sizedPngPath 16) = "Resources" := by decide
    have d32 : dirname (sizedPngPath 32) = "Resources" := by decide
    have d64 : dirname (sizedPngPath 64) = "Resources" := by decide
    have d128 : dirname (sizedPngPath 128) = "Resources" := by decide
    have d256 : dirname (sizedPngPath 256) = "Resources" := by decide
    have d512 : dirname (sizedPngPath 512) = "Resources" := by decide
    simp only [create_icon_strict, create_icon, FS.writeStrict, sizes, saveAllStrict,
      List.foldl, d0, d16, d32, d64, d128, d256, d512, FS.hasDir_write, h, if_true]
    rfl

/-- Because os.makedirs runs before create_icon, a whole run under the
strict write model never hits the raising branch and coincides with
the coarse model of main. -/
theorem main_strict_eq (e : Env) (fs0 : FS) :
    main_strict e fs0 = some (main e fs0) := by
  have hh := create_icon_strict_agrees e.pilAvailable (FS.mkdir fs0 "Resources")
    (FS.hasDir_mkdir fs0 "Resources")
  unfold main_strict main
  simp only [hh]
  split <;> rfl

/-- create_icon only writes files; the directory set is untouched. -/
theorem create_icon_dirs (b : Bool) (fs : FS) :
    (create_icon b fs).fs.dirs = fs.dirs := by
  cases b
  · rfl
  · simp [create_icon, sizes, List.foldl, FS.write_dirs]

/-- create_icns only writes files; the directory set is untouched. -/
theorem create_icns_dirs (s : SipsResult) (fs : FS) :
    (create_icns s fs).fs.dirs = fs.dirs := by
  unfold create_icns
  split
  · rfl
  · cases s <;> simp [FS.write_dirs]

/-- The only directory change a whole run makes is the initial
os.makedirs on Resources. -/
theorem main_dirs (e : Env) (fs0 : FS) :
    (main e fs0).fs.dirs = (FS.mkdir fs0 "Resources").dirs := by
  unfold main
  cases h : (create_icon e.pilAvailable (FS.mkdir fs0 "Resources")).ok <;>
    simp [h, create_icns_dirs, create_icon_dirs]

/-- After any whole run the Resources directory exists. -/
theorem main_hasDir (e : Env) (fs0 : FS) :
    FS.hasDir (main e fs0).fs "Resources" = true := by
  have hd := main_dirs e fs0
  have h2 := FS.hasDir_mkdir fs0 "Resources"
  unfold FS.hasDir at h2 ⊢
  rw [hd]
  exact h2

/-! ### Claim theorems -/

/-- Claim C1: when the image library is available, running the program
writes exactly 7 PNG files, at the fixed paths Resources/AppIcon.png
and Resources/AppIcon_NxN.png for N in 16, 32, 64, 128, 256, 512, with
pixel dimensions 512 for the base image and N for each resized copy,
and no other PNG files. -/
theorem program_writes_exactly_seven_pngs (e : Env) (h : e.pilAvailable = true) :
    pngFiles (main e FS.empty).fs = expectedPngs := by
  obtain ⟨p, s, a, v⟩ := e
  cases p
  · simp at h
  · cases s <;> rfl

theorem program_writes_exactly_seven_pngs_witness :
    (Env.mk true SipsResult.success [] []).pilAvailable = true ∧
    pngFiles (main (Env.mk true SipsResult.success [] []) FS.empty).fs = expectedPngs :=
  ⟨rfl, program_writes_exactly_seven_pngs (Env.mk true SipsResult.success [] []) rfl⟩

/-- Claim C2: the exit status is 0 exactly when create_icon returned
success and 1 when it failed, and the outcome of the sips conversion
never changes the exit status. -/
theorem exit_code_matches_renderer (e : Env) (fs0 : FS) (s : SipsResult) :
    ((main e fs0).exitCode =
      if (create_icon e.pilAvailable (FS.mkdir fs0 "Resources")).ok then 0 else 1) ∧
    (main (Env.mk e.pilAvailable s e.args e.envVars) fs0).exitCode
      = (main e fs0).exitCode := by
  obtain ⟨p, sp, a, v⟩ := e
  constructor
  · cases p <;> rfl
  · cases p
    · show (1 : Nat) = 1
      rfl
    · show (0 : Nat) = 0
      rfl

theorem exit_code_matches_renderer_witness :
    ((main (Env.mk true SipsResult.success [] []) FS.empty).exitCode =
      if (create_icon true (FS.mkdir FS.empty "Resources")).ok then 0 else 1) ∧
    (main (Env.mk true SipsResult.fileNotFoundError [] []) FS.empty).exitCode
      = (main (Env.mk true SipsResult.success [] []) FS.empty).exitCode :=
  exit_code_matches_renderer (Env.mk true SipsResult.success [] []) FS.empty
    SipsResult.fileNotFoundError

/-- Claim C3: if the image library is unavailable, create_icon prints
the install hint and returns False without raising, and the whole run
creates no files and exits with status 1. -/
theorem pil_unavailable_behavior (e : Env) (fs0 : FS) (h : e.pilAvailable = false) :
    (create_icon e.pilAvailable fs0).ok = false ∧
    (create_icon e.pilAvailable fs0).prints =
      ["PIL (Pillow) not available. Install with: pip3 install Pillow"] ∧
    (create_icon e.pilAvailable fs0).fs = fs0 ∧
    (main e fs0).fs.files = fs0.files ∧
    (main e fs0).exitCode = 1 := by
  obtain ⟨p, s, a, v⟩ := e
  cases p
  · exact ⟨rfl, rfl, rfl, FS.mkdir_files fs0 "Resources", rfl⟩
  · simp at h

theorem pil_unavailable_behavior_witness :
    (Env.mk false SipsResult.success [] []).pilAvailable = false ∧
    ((create_icon false FS.empty).ok = false ∧
     (create_icon false FS.empty).prints =
       ["PIL (Pillow) not available. Install with: pip3 install Pillow"] ∧
     (create_icon false FS.empty).fs = FS.empty ∧
     (main (Env.mk false SipsResult.success [] []) FS.empty).fs.files = FS.empty.files ∧
     (main (Env.mk false SipsResult.success [] []) FS.empty).exitCode = 1) :=
  ⟨rfl, pil_unavailable_behavior (Env.mk false SipsResult.success [] []) FS.empty rfl⟩

/-- Claim C4: for every index i below 6, node i is placed at canvas
center plus 150 times (cos of 60 i degrees, sin of 60 i degrees), so
all six node centers lie at Euclidean distance 150 from the canvas
center at angles 0, 60, ..., 300 degrees. -/
theorem node_positions (i : Nat) (h : i < 6) :
    nodeX i = (center : ℝ) + (connection_radius : ℝ) *
        Real.cos (((node_angle_deg i : ℕ) : ℝ) * Real.pi / 180) ∧
    nodeY i = (center : ℝ) + (connection_radius : ℝ) *
        Real.sin (((node_angle_deg i : ℕ) : ℝ) * Real.pi / 180) ∧
    node_angle_deg i = i * 60 ∧
    connection_radius = 150 ∧
    (nodeX i - (center : ℝ)) ^ 2 + (nodeY i - (center : ℝ)) ^ 2
      = ((connection_radius : ℕ) : ℝ) ^ 2 := by
  refine ⟨rfl, rfl, rfl, rfl, ?_⟩
  have hc := Real.sin_sq_add_cos_sq (radians ((node_angle_deg i : ℕ) : ℝ))
  unfold nodeX nodeY
  linear_combination (((connection_radius : ℕ) : ℝ)) ^ 2 * hc

theorem node_positions_witness :
    0 < 6 ∧
    (nodeX 0 = (center : ℝ) + (connection_radius : ℝ) *
        Real.cos (((node_angle_deg 0 : ℕ) : ℝ) * Real.pi / 180) ∧
     nodeY 0 = (center : ℝ) + (connection_radius : ℝ) *
        Real.sin (((node_angle_deg 0 : ℕ) : ℝ) * Real.pi / 180) ∧
     node_angle_deg 0 = 0 * 60 ∧
     connection_radius = 150 ∧
     (nodeX 0 - (center : ℝ)) ^ 2 + (nodeY 0 - (center : ℝ)) ^ 2
       = ((connection_radius : ℕ) : ℝ) ^ 2) :=
  ⟨by decide, node_positions 0 (by decide)⟩

/-- Claim C5: the node fill colors strictly alternate by index parity:
accent orange at even indices, secondary white at odd indices, and the
two colors differ. -/
theorem node_colors_alternate :
    (List.range 6).map node_color =
      [accent_color, secondary_color, accent_color, secondary_color,
       accent_color, secondary_color] ∧
    accent_color ≠ secondary_color := by
  decide

/-- Claim C6: the entry point calls create_icns exactly when
create_icon returned success: never after a renderer failure, always
after renderer success. -/
theorem converter_called_iff_renderer_ok (e : Env) (fs0 : FS) :
    (main e fs0).icnsCalled = (create_icon e.pilAvailable (FS.mkdir fs0 "Resources")).ok := by
  obtain ⟨p, s, a, v⟩ := e
  cases p <;> rfl

theorem converter_called_iff_renderer_ok_witness :
    (main (Env.mk true SipsResult.success [] []) FS.empty).icnsCalled =
      (create_icon true (FS.mkdir FS.empty "Resources")).ok :=
  converter_called_iff_renderer_ok (Env.mk true SipsResult.success [] []) FS.empty

/-- Claim C7: for both invocation errors of sips (binary missing or
non-zero exit), create_icns catches the error, prints a warning and
returns False without raising; the filesystem is left unchanged by it,
and a run that rendered successfully still writes the seven PNGs, never
writes the ICNS, and exits with status 0. -/
theorem converter_failure_nonfatal (e : Env) (fs : FS)
    (hp : e.pilAvailable = true) (hs : e.sips ≠ SipsResult.success)
    (hf : FS.fileExists fs "Resources/AppIcon.png" = true) :
    (create_icns e.sips fs).ok = false ∧
    (create_icns e.sips fs).fs = fs ∧
    ((create_icns e.sips fs).prints =
        ["⚠️  Could not create ICNS file (sips not available)"] ∨
     (create_icns e.sips fs).prints =
        ["⚠️  Could not create ICNS file (sips not found)"]) ∧
    (main e FS.empty).exitCode = 0 ∧
    pngFiles (main e FS.empty).fs = expectedPngs ∧
    FS.lookup (main e FS.empty).fs "Resources/AppIcon.icns" = none := by
  obtain ⟨p, s, a, v⟩ := e
  cases p
  · simp at hp
  · cases s
    · exact absurd rfl hs
    · exact ⟨by simp [create_icns, hf], by simp [create_icns, hf],
        Or.inl (by simp [create_icns, hf]), rfl, rfl, rfl⟩
    · exact ⟨by simp [create_icns, hf], by simp [create_icns, hf],
        Or.inr (by simp [create_icns, hf]), rfl, rfl, rfl⟩

/-- A filesystem holding just the rendered base PNG, used to exercise
create_icns directly. -/
def pngOnlyFS : FS :=
  FS.mk [("Resources/AppIcon.png", FileData.png 512 512 none)] ["Resources"]

theorem converter_failure_nonfatal_witness :
    ((Env.mk true SipsResult.calledProcessError [] []).pilAvailable = true ∧
     (Env.mk true SipsResult.calledProcessError [] []).sips ≠ SipsResult.success ∧
     FS.fileExists pngOnlyFS "Resources/AppIcon.png" = true) ∧
    ((create_icns SipsResult.calledProcessError pngOnlyFS).ok = false ∧
     (create_icns SipsResult.calledProcessError pngOnlyFS).fs = pngOnlyFS ∧
     ((create_icns SipsResult.calledProcessError pngOnlyFS).prints =
        ["⚠️  Could not create ICNS file (sips not available)"] ∨
      (create_icns SipsResult.calledProcessError pngOnlyFS).prints =
        ["⚠️  Could not create ICNS file (sips not found)"]) ∧
     (main (Env.mk true SipsResult.calledProcessError [] []) FS.empty).exitCode = 0 ∧
     pngFiles (main (Env.mk true SipsResult.calledProcessError [] []) FS.empty).fs
       = expectedPngs ∧
     FS.lookup (main (Env.mk true SipsResult.calledProcessError [] []) FS.empty).fs
       "Resources/AppIcon.icns" = none) :=
  ⟨⟨rfl, by decide, by decide⟩,
   converter_failure_nonfatal (Env.mk true SipsResult.calledProcessError [] []) pngOnlyFS
     rfl (by decide) (by decide)⟩

/-- Claim C8 counterexample: with PIL available but the Resources
directory absent, the renderer does not create that directory: its
first img.save raises an uncaught FileNotFoundError with nothing
written, nothing printed, and the directory still absent. -/
theorem renderer_does_not_create_directory :
    create_icon_strict true FS.empty
      = StrictRender.raised "FileNotFoundError" FS.empty [] ∧
    FS.hasDir FS.empty "Resources" = false := by
  decide

/-- Claim C8 (amended): provided the Resources directory exists, the
renderer writes the full image and the six resized copies (16, 32, 64,
128, 256, 512 px, LANCZOS-resampled) at fixed paths under Resources/
without raising; the Resources directory is created if absent by the
entry point, before the renderer runs, never by the renderer, which
performs no directory operation. -/
theorem renderer_writes_and_entry_creates_dir (e : Env) (fs0 : FS)
    (h : FS.hasDir fs0 "Resources" = true) :
    create_icon_strict true fs0 = StrictRender.returned (create_icon true fs0) ∧
    pngFiles (create_icon true (FS.mkdir FS.empty "Resources")).fs = expectedPngs ∧
    (create_icon true fs0).fs.dirs = fs0.dirs ∧
    FS.hasDir (main e fs0).fs "Resources" = true :=
  ⟨create_icon_strict_agrees true fs0 h, rfl, create_icon_dirs true fs0, main_hasDir e fs0⟩

theorem renderer_writes_and_entry_creates_dir_witness :
    FS.hasDir (FS.mkdir FS.empty "Resources") "Resources" = true ∧
    (create_icon_strict true (FS.mkdir FS.empty "Resources")
        = StrictRender.returned (create_icon true (FS.mkdir FS.empty "Resources")) ∧
     pngFiles (create_icon true (FS.mkdir FS.empty "Resources")).fs = expectedPngs ∧
     (create_icon true (FS.mkdir FS.empty "Resources")).fs.dirs
        = (FS.mkdir FS.empty "Resources").dirs ∧
     FS.hasDir (main (Env.mk true SipsResult.success [] [])
        (FS.mkdir FS.empty "Resources")).fs "Resources" = true) :=
  ⟨by decide,
   renderer_writes_and_entry_creates_dir (Env.mk true SipsResult.success [] [])
     (FS.mkdir FS.empty "Resources") (by decide)⟩

/-- Claim C9: if Resources/AppIcon.png does not exist, create_icns
prints the not-found message and returns False without invoking sips
and without touching the filesystem. -/
theorem icns_guard_missing_png (s : SipsResult) (fs : FS)
    (h : FS.fileExists fs "Resources/AppIcon.png" = false) :
    (create_icns s fs).ok = false ∧
    (create_icns s fs).sipsInvoked = false ∧
    (create_icns s fs).prints = ["❌ AppIcon.png not found"] ∧
    (create_icns s fs).fs = fs := by
  unfold create_icns
  simp [h]

theorem icns_guard_missing_png_witness :
    FS.fileExists FS.empty "Resources/AppIcon.png" = false ∧
    ((create_icns SipsResult.success FS.empty).ok = false ∧
     (create_icns SipsResult.success FS.empty).sipsInvoked = false ∧
     (create_icns SipsResult.success FS.empty).prints = ["❌ AppIcon.png not found"] ∧
     (create_icns SipsResult.success FS.empty).fs = FS.empty) :=
  ⟨rfl, icns_guard_missing_png SipsResult.success FS.empty rfl⟩

/-- Claim C10: the run is deterministic and reads neither command-line
arguments nor environment variables: two runs that agree on image
library availability, sips outcome and initial filesystem produce the
same complete outcome (exit status, filesystem, printed messages),
whatever the arguments and environment variables are. -/
theorem run_independent_of_args_and_env (p : Bool) (s : SipsResult) (fs : FS)
    (a1 a2 : List String) (v1 v2 : List (String × String)) :
    main (Env.mk p s a1 v1) fs = main (Env.mk p s a2 v2) fs := rfl

theorem run_independent_of_args_and_env_witness :
    main (Env.mk true SipsResult.success ["--verbose"] [("HOME", "/a")]) FS.empty =
    main (Env.mk true SipsResult.success [] [("PATH", "/b")]) FS.empty :=
  run_independent_of_args_and_env true SipsResult.success FS.empty
    ["--verbose"] [] [("HOME", "/a")] [("PATH", "/b")]

end CreateIcon
